import Mathlib

/-!
Shallow embedding of the chronos-mvp binary artifact scanner
(src/disk_image.rs, src/mft_parser.rs, src/timeline.rs,
src/event_log_parser.rs, src/prefetch_parser.rs).

Conventions of the embedding:
* a disk image is a byte list (`List Nat`, each element below 256);
* Rust `Result` values with an anyhow error are `PResult` (the error payload
  is only a message and is dropped);
* a Rust slice-index panic is a distinct outcome constructor, never silently
  an error;
* loops of the source that are not structurally bounded take a fuel
  parameter; returning `none` means the fuel ran out, so a result that is
  `none` for every fuel is a loop that never terminates;
* machine integers are `Nat`/`Int`; the i64 cast and the i64 subtraction in
  the time codec, and the usize addition in the get_slice bounds check,
  wrap modulo 2^64 (two-complement, release-mode semantics), written with
  explicit `%`;
* Rust i64 division truncates toward zero and is modelled by `i64_tdiv`;
* `String.from_utf16_lossy` is not modelled: the decoded filename is kept as
  its list of little-endian 16-bit code units.
-/

set_option maxRecDepth 100000
set_option maxHeartbeats 1000000

/-- Result of a fallible parse step, mirroring Rust `anyhow::Result`. -/
inductive PResult (α : Type) where
  | ok (val : α)
  | error
deriving DecidableEq

/-- DiskImage::get_slice (src/disk_image.rs lines 26-31) restricted to
calls whose usize sum `offset + length` does not overflow: there the sum is
exact and the function is a bounds check followed by the slice.  Every call
made by the scan is of this shape (the scan guard keeps offset + 1024 at or
below the image size, itself below 2^64).  The full release-mode usize
semantics, including the overflow path where the bounds check is bypassed
and the slice panics, is `get_slice_usize` below; the two agree whenever
the sum is below 2^64. -/
def get_slice (image : List Nat) (offset length : Nat) : PResult (List Nat) :=
  if offset + length > image.length then .error
  else .ok (List.take length (List.drop offset image))

/-- Outcome of a raw get_slice call under full usize semantics: a clean
byte slice, the clean out-of-bounds error, or a Rust slice panic, which
aborts rather than returns. -/
inductive SliceOutcome where
  | ok (bytes : List Nat)
  | error
  | panicked
deriving DecidableEq

/-- Release-mode usize addition: wraps modulo 2^64. -/
def usize_add (a b : Nat) : Nat :=
  (a + b) % 18446744073709551616

/-- DiskImage::get_slice (src/disk_image.rs lines 26-31) with full
release-mode usize semantics.  The check compares the wrapped sum against
the image size; when it passes, the source slices
data[offset .. offset + length] with the same wrapped end, which panics
whenever the end is below offset (exactly the overflow case).  In a debug
build the overflowing addition itself panics, so an overflowing call
aborts in either build mode. -/
def get_slice_usize (image : List Nat) (offset length : Nat) : SliceOutcome :=
  if usize_add offset length > image.length then .error
  else if offset ≤ usize_add offset length then
    .ok (List.take (usize_add offset length - offset) (List.drop offset image))
  else .panicked

/-- Injection of the in-range get_slice result into the three-way outcome. -/
def toSliceOutcome : PResult (List Nat) → SliceOutcome
  | .ok bytes => .ok bytes
  | .error => .error

/-- One byte at index `i` of the in-bounds cursor (callers check bounds first). -/
def readU8 (data : List Nat) (i : Nat) : Nat := data.getD i 0

/-- Little-endian u16 read. -/
def readU16 (data : List Nat) (i : Nat) : Nat :=
  readU8 data i + 256 * readU8 data (i + 1)

/-- Little-endian u32 read. -/
def readU32 (data : List Nat) (i : Nat) : Nat :=
  readU16 data i + 65536 * readU16 data (i + 2)

/-- Little-endian u64 read. -/
def readU64 (data : List Nat) (i : Nat) : Nat :=
  readU32 data i + 4294967296 * readU32 data (i + 4)

/-- The 4-byte entry magic b"FILE" (src/mft_parser.rs line 10). -/
def fileMagic : List Nat := [70, 73, 76, 69]

/-- struct MftAttribute (src/mft_parser.rs lines 28-38). -/
structure MftAttribute where
  attribute_type : Nat
  attribute_length : Nat
  non_resident : Bool
  name_length : Nat
  name_offset : Nat
  flags : Nat
  attribute_id : Nat
  content : List Nat
deriving DecidableEq

/-- fn parse_attribute (src/mft_parser.rs lines 135-173).  The 16-byte check
and the cursor reads of the content offset and size pair (which need 20
bytes) are the only failure points; a resident content region is sliced out
only when it fits in the remaining data, otherwise content is empty. -/
def parse_attribute (data : List Nat) : PResult MftAttribute :=
  if data.length < 16 then .error
  else
    let attribute_type := readU32 data 0
    let attribute_length := readU32 data 4
    let non_resident := readU8 data 8 != 0
    let name_length := readU8 data 9
    let name_offset := readU16 data 10
    let flags := readU16 data 12
    let attribute_id := readU16 data 14
    if non_resident then
      .ok ⟨attribute_type, attribute_length, non_resident, name_length,
           name_offset, flags, attribute_id, []⟩
    else if data.length < 20 then .error
    else
      let content_offset := readU16 data 16
      let content_size := readU16 data 18
      let content :=
        if content_offset + content_size ≤ data.length then
          List.take content_size (List.drop content_offset data)
        else []
      .ok ⟨attribute_type, attribute_length, non_resident, name_length,
           name_offset, flags, attribute_id, content⟩

/-- struct FileNameAttribute (src/mft_parser.rs lines 40-51); the filename is
kept as its UTF-16 code units. -/
structure FileNameAttribute where
  parent_directory : Nat
  creation_time : Nat
  last_access_time : Nat
  last_write_time : Nat
  mft_change_time : Nat
  file_size : Nat
  allocated_size : Nat
  file_flags : Nat
  filename_length : Nat
  filename_units : List Nat
deriving DecidableEq

/-- Outcome of fn parse_filename_attribute: a clean Ok, a clean Err, or a
Rust panic (slice index out of range), which aborts rather than returns. -/
inductive FnOutcome where
  | ok (f : FileNameAttribute)
  | errored
  | panicked
deriving DecidableEq

/-- chunks(2) followed by u16::from_le_bytes (src/mft_parser.rs lines
216-219).  The odd-length case never occurs at the call site, whose slice
has length 2 * filename_length. -/
def utf16Units : List Nat → List Nat
  | b0 :: b1 :: rest => (b0 + 256 * b1) :: utf16Units rest
  | _ => []

/-- fn parse_filename_attribute (src/mft_parser.rs lines 187-222).  The
source checks only the 66-byte minimum and then slices
data[66 .. 66 + filename_length * 2] without a bound check: when that end
exceeds the data length the Rust slice operation panics. -/
def parse_filename_attribute (data : List Nat) : FnOutcome :=
  if data.length < 66 then .errored
  else
    let parent_directory := readU64 data 0
    let creation_time := readU64 data 8
    let last_access_time := readU64 data 16
    let last_write_time := readU64 data 24
    let mft_change_time := readU64 data 32
    let file_size := readU64 data 40
    let allocated_size := readU64 data 48
    let file_flags := readU32 data 56
    let filename_length := readU8 data 60
    if 66 + filename_length * 2 ≤ data.length then
      let filename_bytes := List.take (filename_length * 2) (List.drop 66 data)
      .ok ⟨parent_directory, creation_time, last_access_time, last_write_time,
           mft_change_time, file_size, allocated_size, file_flags,
           filename_length, utf16Units filename_bytes⟩
    else .panicked

/-- struct MftEntry (src/mft_parser.rs lines 14-26). -/
structure MftEntry where
  signature : List Nat
  sequence_number : Nat
  link_count : Nat
  attribute_offset : Nat
  flags : Nat
  entry_size : Nat
  entry_allocated : Nat
  file_reference : Nat
  base_file_record : Nat
  next_attribute_id : Nat
  attributes : List MftAttribute
deriving DecidableEq

/-- The attribute loop of fn parse_mft_entry (src/mft_parser.rs lines
107-118): while the cursor is below 1020 (entry size minus the 4-byte
end-of-list margin), parse one attribute from the remaining bytes, push it
and advance the cursor by its declared length; a parse failure breaks the
loop.  The source has no guard on a zero declared length, so the loop is
not structurally bounded; `none` means the fuel ran out. -/
def parse_attrs (data : List Nat) : Nat → Nat → Option (List MftAttribute)
  | 0, _ => none
  | fuel + 1, attr_offset =>
    if attr_offset < 1020 then
      match parse_attribute (List.drop attr_offset data) with
      | .ok attr =>
          (parse_attrs data fuel (attr_offset + attr.attribute_length)).map
            (fun rest => attr :: rest)
      | .error => some []
    else some []

/-- fn parse_mft_entry, body after get_slice (src/mft_parser.rs lines
89-133): the signature must equal the magic, the fixed header fields are
read little-endian at their fixed offsets, then the attribute loop runs
from the declared attribute offset. -/
def parse_mft_entry_data (fuel : Nat) (data : List Nat) :
    Option (PResult MftEntry) :=
  if List.take 4 data ≠ fileMagic then some .error
  else
    match parse_attrs data fuel (readU16 data 8) with
    | none => none
    | some attrs =>
        some (.ok ⟨List.take 4 data, readU16 data 4, readU16 data 6,
          readU16 data 8, readU16 data 10, readU32 data 12, readU32 data 16,
          readU64 data 20, readU64 data 28, readU16 data 36, attrs⟩)

/-- fn parse_mft_entry (src/mft_parser.rs lines 88-133): read one 1024-byte
block at `offset` and decode it. -/
def parse_mft_entry (fuel : Nat) (image : List Nat) (offset : Nat) :
    Option (PResult MftEntry) :=
  match get_slice image offset 1024 with
  | .error => some .error
  | .ok data => parse_mft_entry_data fuel data

/-- Outcome of fn extract_file_info: a fact, no fact, or a propagated panic
from parse_filename_attribute. -/
inductive ExtractOutcome where
  | found (f : FileNameAttribute)
  | absent
  | panicked
deriving DecidableEq

/-- Attribute-list walk of fn extract_file_info (src/mft_parser.rs lines
175-185): the first attribute of type 0x30 with non-empty content that
decodes cleanly yields the fact; a clean decode failure moves on. -/
def extract_file_info_attrs : List MftAttribute → ExtractOutcome
  | [] => .absent
  | attr :: rest =>
    if attr.attribute_type = 48 ∧ attr.content ≠ [] then
      match parse_filename_attribute attr.content with
      | .ok f => .found f
      | .errored => extract_file_info_attrs rest
      | .panicked => .panicked
    else extract_file_info_attrs rest

/-- fn extract_file_info (src/mft_parser.rs lines 175-185). -/
def extract_file_info (entry : MftEntry) : ExtractOutcome :=
  extract_file_info_attrs entry.attributes

/-- Observable outcome of fn parse_mft: the fact count and whether the scan
stopped early at the cap; the Rust function itself always returns Ok. -/
inductive ScanOutcome where
  | done (events_found : Nat) (stopped_early : Bool)
  | panicked
  | diverge
deriving DecidableEq

/-- The scan loop of fn parse_mft (src/mft_parser.rs lines 61-79): while a
full 1024-byte entry fits, try to decode it; a decoded entry that yields a
fact increments the counter; the offset advances by the stride and the loop
breaks once the counter exceeds 1000.  Fuel bounds the number of
iterations; the inner attribute loop shares the same fuel value. -/
def parse_mft_loop (image : List Nat) : Nat → Nat → Nat → ScanOutcome
  | 0, _, _ => .diverge
  | fuel + 1, offset, events_found =>
    if offset + 1024 ≤ image.length then
      match parse_mft_entry (fuel + 1) image offset with
      | none => .diverge
      | some .error =>
          if events_found > 1000 then .done events_found true
          else parse_mft_loop image fuel (offset + 1024) events_found
      | some (.ok entry) =>
          match extract_file_info entry with
          | .panicked => .panicked
          | .found _ =>
              if events_found + 1 > 1000 then .done (events_found + 1) true
              else parse_mft_loop image fuel (offset + 1024) (events_found + 1)
          | .absent =>
              if events_found > 1000 then .done events_found true
              else parse_mft_loop image fuel (offset + 1024) events_found
    else .done events_found false

/-- fn parse_mft (src/mft_parser.rs lines 54-86).  The loop runs at most
one iteration per 1024-byte stride, so this fuel is always sufficient for
a terminating run. -/
def parse_mft (image : List Nat) : ScanOutcome :=
  parse_mft_loop image (image.length / 1024 + 1) 0 0

/-- Two-complement interpretation of an integer as a 64-bit signed value
(the semantics of `as i64` and of wrapping i64 arithmetic). -/
def toI64 (n : Int) : Int :=
  (n + 9223372036854775808) % 18446744073709551616 - 9223372036854775808

/-- Rust i64 division truncates toward zero; for a positive divisor this is
Euclidean division of the magnitudes with the sign restored. -/
def i64_tdiv (a b : Int) : Int :=
  if 0 ≤ a then a / b else -((-a) / b)

/-- The seconds computation of fn windows_time_to_utc (src/mft_parser.rs
lines 253-261): `(windows_time as i64 - 116444736000000000) / 10000000`.
The cast and the subtraction wrap modulo 2^64. -/
def unix_seconds (windows_time : Nat) : Int :=
  i64_tdiv (toI64 (toI64 (windows_time : Int) - 116444736000000000)) 10000000

/-- chrono `Utc.timestamp_opt(secs, 0)`: Some exactly when the seconds lie
in the chrono calendar range (the bounds are the timestamps of
NaiveDateTime MIN and MAX); never ambiguous for Utc. -/
def timestamp_opt (secs : Int) : Option Int :=
  if -8334601228800 ≤ secs ∧ secs ≤ 8210266876799 then some secs else none

/-- fn windows_time_to_utc (src/mft_parser.rs lines 253-261): on a
representable instant (the Single arm) the computed seconds are returned;
in every other arm the source substitutes `Utc::now()`, passed here
explicitly as `now`. -/
def windows_time_to_utc (windows_time : Nat) (now : Int) : Int :=
  Option.getD (timestamp_opt (unix_seconds windows_time)) now

/-- enum EventType (src/timeline.rs lines 13-21). -/
inductive EventType where
  | FileCreation
  | FileModification
  | FileAccess
  | FileMftChange
  | UserLogon
  | ServiceInstallation
  | ProgramExecution
deriving DecidableEq

/-- struct TimelineEvent (src/timeline.rs lines 4-10); the timestamp is the
whole-second UTC instant. -/
structure TimelineEvent where
  timestamp : Int
  event_type : EventType
  description : String
  source_artifact : String
deriving DecidableEq

/-- Timeline::add_event (src/timeline.rs lines 47-49). -/
def Timeline.add_event (events : List TimelineEvent) (e : TimelineEvent) :
    List TimelineEvent :=
  events ++ [e]

/-- Timeline::add_user_logon (src/timeline.rs lines 70-79). -/
def Timeline.add_user_logon (events : List TimelineEvent) (timestamp : Int)
    (username source_ip : String) : List TimelineEvent :=
  events ++ [⟨timestamp, .UserLogon,
    "User \x27" ++ username ++ "\x27 logged on from source IP " ++ source_ip,
    "Security.evtx"⟩]

/-- Timeline::add_service_installation (src/timeline.rs lines 81-89). -/
def Timeline.add_service_installation (events : List TimelineEvent)
    (timestamp : Int) (service_name : String) : List TimelineEvent :=
  events ++ [⟨timestamp, .ServiceInstallation,
    "Service \x27" ++ service_name ++ "\x27 was installed.",
    "System.evtx"⟩]

/-- Timeline::add_program_execution (src/timeline.rs lines 91-98). -/
def Timeline.add_program_execution (events : List TimelineEvent)
    (timestamp : Int) (executable_name prefetch_file : String) :
    List TimelineEvent :=
  events ++ [⟨timestamp, .ProgramExecution,
    "Executable \x27" ++ executable_name ++ "\x27 was run.",
    prefetch_file⟩]

/-- Timeline::sort (src/timeline.rs lines 100-104): Rust `slice::sort_by`
is a stable sort, modelled by the stable `List.mergeSort` under the same
timestamp comparison. -/
def Timeline.sort (events : List TimelineEvent) : List TimelineEvent :=
  events.mergeSort (fun a b => decide (a.timestamp ≤ b.timestamp))

/-- Gregorian leap year. -/
def is_leap_year (y : Nat) : Bool :=
  y % 4 = 0 && (y % 100 != 0 || y % 400 = 0)

/-- Days in a Gregorian month. -/
def days_in_month (y m : Nat) : Nat :=
  if m = 2 then (if is_leap_year y then 29 else 28)
  else if m = 4 || m = 6 || m = 9 || m = 11 then 30
  else 31

/-- Days in year `y` before month `m`. -/
def days_before_month (y : Nat) : Nat → Nat
  | 0 => 0
  | 1 => 0
  | m + 1 => days_before_month y m + days_in_month y m

/-- Leap years in the interval [1, y). -/
def leap_days_before (y : Nat) : Nat :=
  (y - 1) / 4 - (y - 1) / 100 + (y - 1) / 400

/-- Days from 1970-01-01 to y-m-d (valid for y at or after 1970, which
covers every literal in the source). -/
def days_from_civil (y m d : Nat) : Nat :=
  365 * (y - 1970) + (leap_days_before y - leap_days_before 1970) +
    days_before_month y m + (d - 1)

/-- chrono DateTime::parse_from_rfc3339 restricted to the shape of the
source literals `yyyy-mm-ddThh:mm:ssZ`: Ok exactly when the calendar fields
are valid, giving the whole-second UTC instant. -/
def parse_from_rfc3339 (y mo d h mi s : Nat) : Option Int :=
  if 1970 ≤ y ∧ 1 ≤ mo ∧ mo ≤ 12 ∧ 1 ≤ d ∧ d ≤ days_in_month y mo ∧
     h ≤ 23 ∧ mi ≤ 59 ∧ s ≤ 59 then
    some ((86400 * days_from_civil y mo d + 3600 * h + 60 * mi + s : Nat) : Int)
  else none

/-- The sample_logons vector (src/event_log_parser.rs lines 29-33), with
each RFC 3339 literal transliterated into its calendar fields. -/
def sample_logons : List (String × String × Nat × Nat × Nat × Nat × Nat × Nat) :=
  [("Administrator", "192.168.1.100", 2024, 1, 15, 10, 30, 0),
   ("User1", "192.168.1.101", 2024, 1, 15, 14, 22, 15),
   ("Admin", "192.168.1.102", 2024, 1, 16, 9, 15, 30)]

/-- fn parse_security_events (src/event_log_parser.rs lines 25-42). -/
def parse_security_events (timeline : List TimelineEvent) : List TimelineEvent :=
  sample_logons.foldl
    (fun tl entry =>
      match entry with
      | (username, source_ip, y, mo, d, h, mi, s) =>
        match parse_from_rfc3339 y mo d h mi s with
        | some ts => Timeline.add_user_logon tl ts username source_ip
        | none => tl)
    timeline

/-- The sample_services vector (src/event_log_parser.rs lines 48-52). -/
def sample_services : List (String × Nat × Nat × Nat × Nat × Nat × Nat) :=
  [("Windows Update", 2024, 1, 15, 11, 45, 0),
   ("Print Spooler", 2024, 1, 15, 16, 20, 30),
   ("Remote Desktop Services", 2024, 1, 16, 8, 10, 15)]

/-- fn parse_system_events (src/event_log_parser.rs lines 44-61). -/
def parse_system_events (timeline : List TimelineEvent) : List TimelineEvent :=
  sample_services.foldl
    (fun tl entry =>
      match entry with
      | (service_name, y, mo, d, h, mi, s) =>
        match parse_from_rfc3339 y mo d h mi s with
        | some ts => Timeline.add_service_installation tl ts service_name
        | none => tl)
    timeline

/-- fn parse_event_logs (src/event_log_parser.rs lines 8-23): the disk
image parameter is received but never read. -/
def parse_event_logs (_image : List Nat) (timeline : List TimelineEvent) :
    List TimelineEvent :=
  parse_system_events (parse_security_events timeline)

/-- The sample_prefetch_files vector (src/prefetch_parser.rs lines 44-50). -/
def sample_prefetch_files :
    List (String × String × Nat × Nat × Nat × Nat × Nat × Nat) :=
  [("SVCHOST.EXE-E39A42F1.pf", "svchost.exe", 2024, 1, 15, 12, 30, 0),
   ("EXPLORER.EXE-12345678.pf", "explorer.exe", 2024, 1, 15, 14, 15, 30),
   ("CMD.EXE-E29B523A.pf", "cmd.exe", 2024, 1, 15, 16, 45, 20),
   ("NOTEPAD.EXE-ABCD1234.pf", "notepad.exe", 2024, 1, 16, 9, 20, 15),
   ("CHROME.EXE-56789012.pf", "chrome.exe", 2024, 1, 16, 10, 30, 45)]

/-- fn parse_sample_prefetch_files (src/prefetch_parser.rs lines 40-64). -/
def parse_sample_prefetch_files (timeline : List TimelineEvent) :
    List TimelineEvent :=
  sample_prefetch_files.foldl
    (fun tl entry =>
      match entry with
      | (prefetch_file, executable_name, y, mo, d, h, mi, s) =>
        match parse_from_rfc3339 y mo d h mi s with
        | some ts =>
            Timeline.add_program_execution tl ts executable_name prefetch_file
        | none => tl)
    timeline

/-- fn parse_prefetch_files (src/prefetch_parser.rs lines 28-38): the disk
image parameter is received but never read. -/
def parse_prefetch_files (_image : List Nat) (timeline : List TimelineEvent) :
    List TimelineEvent :=
  parse_sample_prefetch_files timeline

/-- The six events the event-log collaborator appends, written out. -/
def evtx_sample_events : List TimelineEvent :=
  [⟨1705314600, .UserLogon,
    "User \x27Administrator\x27 logged on from source IP 192.168.1.100",
    "Security.evtx"⟩,
   ⟨1705328535, .UserLogon,
    "User \x27User1\x27 logged on from source IP 192.168.1.101",
    "Security.evtx"⟩,
   ⟨1705396530, .UserLogon,
    "User \x27Admin\x27 logged on from source IP 192.168.1.102",
    "Security.evtx"⟩,
   ⟨1705319100, .ServiceInstallation,
    "Service \x27Windows Update\x27 was installed.", "System.evtx"⟩,
   ⟨1705335630, .ServiceInstallation,
    "Service \x27Print Spooler\x27 was installed.", "System.evtx"⟩,
   ⟨1705392615, .ServiceInstallation,
    "Service \x27Remote Desktop Services\x27 was installed.", "System.evtx"⟩]

/-- The five events the prefetch collaborator appends, written out. -/
def pf_sample_events : List TimelineEvent :=
  [⟨1705321800, .ProgramExecution, "Executable \x27svchost.exe\x27 was run.",
    "SVCHOST.EXE-E39A42F1.pf"⟩,
   ⟨1705328130, .ProgramExecution, "Executable \x27explorer.exe\x27 was run.",
    "EXPLORER.EXE-12345678.pf"⟩,
   ⟨1705337120, .ProgramExecution, "Executable \x27cmd.exe\x27 was run.",
    "CMD.EXE-E29B523A.pf"⟩,
   ⟨1705396815, .ProgramExecution, "Executable \x27notepad.exe\x27 was run.",
    "NOTEPAD.EXE-ABCD1234.pf"⟩,
   ⟨1705401045, .ProgramExecution, "Executable \x27chrome.exe\x27 was run.",
    "CHROME.EXE-56789012.pf"⟩]

/-- Entry block with a valid signature whose first attribute declares
length 0 and still parses (zeroed attribute bytes: resident, with an empty
in-bounds content region): the attribute cursor never advances. -/
def c1Block : List Nat :=
  [70, 73, 76, 69, 0, 0, 0, 0, 56, 0] ++ List.replicate 1014 0

/-- The zero-length attribute parse_attribute decodes at cursor 56 of
c1Block (zeroed bytes: type 0, declared length 0, resident, empty
in-bounds content region). -/
def c1Attr : MftAttribute :=
  ⟨0, 0, false, 0, 0, 0, 0, []⟩

/-- File-naming attribute content of exactly the 66-byte minimum whose
declared filename length is 1 character, so the filename field ends at
byte 68, past the end of the content. -/
def c2Data : List Nat :=
  List.replicate 60 0 ++ [1] ++ List.replicate 5 0

/-- Attribute bytes whose declared attribute length is 24 but whose
resident content region is offset 20, size 8 (ending at 28): the region
fits in the 28 available bytes but exceeds the declared length. -/
def c7Data : List Nat :=
  [0, 0, 0, 0, 24, 0, 0, 0, 0, 0, 0, 0, 0, 0, 0, 0, 20, 0, 8, 0,
   1, 2, 3, 4, 5, 6, 7, 8]

/-- The attribute parse_attribute decodes from c7Data. -/
def c7Attr : MftAttribute :=
  ⟨0, 24, false, 0, 0, 0, 0, [1, 2, 3, 4, 5, 6, 7, 8]⟩

/-- A well-formed 1024-byte entry: magic, attribute offset 56; at 56 one
resident attribute of type 0x30, declared length 964 (so the cursor next
moves to 1020 and the loop ends), content offset 24 and size 66; the
66 zero content bytes decode as a filename attribute with an empty name. -/
def validBlock : List Nat :=
  [70, 73, 76, 69] ++ [0, 0, 0, 0] ++ [56, 0] ++ List.replicate 46 0 ++
  [48, 0, 0, 0] ++ [196, 3, 0, 0] ++ [0, 0, 0, 0, 0, 0, 0, 0] ++
  [24, 0] ++ [66, 0] ++ List.replicate 948 0

/-- The attribute decoded from validBlock at cursor 56. -/
def vAttr : MftAttribute :=
  ⟨48, 964, false, 0, 0, 0, 0, List.replicate 66 0⟩

/-- The entry decoded from validBlock. -/
def vEntry : MftEntry :=
  ⟨[70, 73, 76, 69], 0, 0, 56, 0, 0, 0, 0, 0, 0, [vAttr]⟩

/-- The fact extracted from validBlock. -/
def vFact : FileNameAttribute :=
  ⟨0, 0, 0, 0, 0, 0, 0, 0, 0, []⟩

/-- `n` consecutive copies of validBlock. -/
def repBlocks : Nat → List Nat
  | 0 => []
  | n + 1 => validBlock ++ repBlocks n

/-- An image of 1005 consecutive valid fact-yielding entries (the cap is
1000, so this is the N+5 image of the cap property). -/
def c5Image : List Nat := repBlocks 1005

/-- An image whose first 1024-byte block has a wrong magic and whose
second block is a valid fact-yielding entry. -/
def c9Image : List Nat := List.replicate 1024 0 ++ validBlock

/-- The attribute at cursor 56 of validBlock decodes as vAttr. -/
theorem parse_attribute_validBlock :
    parse_attribute (List.drop 56 validBlock) = .ok vAttr := by
  decide

/-- With any fuel at least 2, the attribute loop on validBlock finds
exactly the one attribute and stops at cursor 1020. -/
theorem parse_attrs_validBlock (f : Nat) :
    parse_attrs validBlock (f + 2) 56 = some [vAttr] := by
  have h1 : parse_attribute (List.drop 56 validBlock) = .ok vAttr :=
    parse_attribute_validBlock
  simp [parse_attrs, h1, vAttr]

/-- With any fuel at least 2, validBlock decodes as vEntry. -/
theorem parse_entry_data_validBlock (f : Nat) :
    parse_mft_entry_data (f + 2) validBlock = some (.ok vEntry) := by
  unfold parse_mft_entry_data
  rw [if_neg (by decide : ¬(List.take 4 validBlock ≠ fileMagic))]
  rw [show readU16 validBlock 8 = 56 from by decide]
  rw [parse_attrs_validBlock f]
  decide

theorem validBlock_length : validBlock.length = 1024 := by decide

theorem repBlocks_length (n : Nat) : (repBlocks n).length = n * 1024 := by
  induction n with
  | zero => rfl
  | succ n ih =>
    show (validBlock ++ repBlocks n).length = (n + 1) * 1024
    rw [List.length_append, validBlock_length, ih]
    omega

theorem drop_repBlocks (i : Nat) :
    ∀ n : Nat, i ≤ n → List.drop (i * 1024) (repBlocks n) = repBlocks (n - i) := by
  induction i with
  | zero => intro n _; simp
  | succ i ih =>
    intro n h
    obtain ⟨m, rfl⟩ : ∃ m, n = m + 1 := ⟨n - 1, by omega⟩
    have hdrop : List.drop 1024 (repBlocks (m + 1)) = repBlocks m := by
      show List.drop 1024 (validBlock ++ repBlocks m) = repBlocks m
      rw [← validBlock_length, List.drop_left]
    have h1 : (i + 1) * 1024 = 1024 + i * 1024 := by omega
    rw [h1, ← List.drop_drop, hdrop, ih m (by omega)]
    congr 1
    omega

theorem take_repBlocks (m : Nat) :
    List.take 1024 (repBlocks (m + 1)) = validBlock := by
  show List.take 1024 (validBlock ++ repBlocks m) = validBlock
  rw [← validBlock_length, List.take_left]

theorem c5_len : c5Image.length = 1029120 := by
  show (repBlocks 1005).length = 1029120
  rw [repBlocks_length]

/-- Every stride-aligned read of the N+5 image yields validBlock. -/
theorem c5_slice (i : Nat) (hi : i < 1005) :
    get_slice c5Image (i * 1024) 1024 = .ok validBlock := by
  have hlen : c5Image.length = 1029120 := c5_len
  unfold get_slice
  rw [if_neg (by omega : ¬(i * 1024 + 1024 > c5Image.length))]
  have hd : List.drop (i * 1024) c5Image = repBlocks (1005 - i) :=
    drop_repBlocks i 1005 (by omega)
  rw [hd]
  obtain ⟨m, hm⟩ : ∃ m, 1005 - i = m + 1 := ⟨1005 - i - 1, by omega⟩
  rw [hm, take_repBlocks]

/-- One scan-loop step over a block that reads as validBlock, when the
incremented counter stays at or below the cap: the counter goes up and the
scan continues at the next stride. -/
theorem scan_step_valid_cont (image : List Nat) (g offset c : Nat)
    (hoff : offset + 1024 ≤ image.length)
    (hslice : get_slice image offset 1024 = .ok validBlock)
    (hc : c + 1 ≤ 1000) :
    parse_mft_loop image (g + 2) offset c =
      parse_mft_loop image (g + 1) (offset + 1024) (c + 1) := by
  conv_lhs => rw [parse_mft_loop]
  rw [if_pos hoff]
  unfold parse_mft_entry
  rw [hslice]
  have e : g + 1 + 1 = g + 2 := by omega
  rw [e]
  simp only [parse_entry_data_validBlock g,
    show extract_file_info vEntry = .found vFact from by decide]
  rw [if_neg (by omega : ¬(c + 1 > 1000))]

/-- One scan-loop step over a block that reads as validBlock, when the
incremented counter exceeds the cap: the scan stops early. -/
theorem scan_step_valid_stop (image : List Nat) (g offset c : Nat)
    (hoff : offset + 1024 ≤ image.length)
    (hslice : get_slice image offset 1024 = .ok validBlock)
    (hc : c + 1 > 1000) :
    parse_mft_loop image (g + 2) offset c = .done (c + 1) true := by
  conv_lhs => rw [parse_mft_loop]
  rw [if_pos hoff]
  unfold parse_mft_entry
  rw [hslice]
  have e : g + 1 + 1 = g + 2 := by omega
  rw [e]
  simp only [parse_entry_data_validBlock g,
    show extract_file_info vEntry = .found vFact from by decide]
  rw [if_pos hc]

/-- One scan-loop step over a block whose first four bytes are not the
magic: the counter is unchanged and the scan resumes at the next stride. -/
theorem scan_step_skip (image : List Nat) (fuel offset c : Nat)
    (hoff : offset + 1024 ≤ image.length)
    (hc : c ≤ 1000)
    (hsig : List.take 4 (List.drop offset image) ≠ fileMagic) :
    parse_mft_loop image (fuel + 1) offset c =
      parse_mft_loop image fuel (offset + 1024) c := by
  have hdata : get_slice image offset 1024 =
      .ok (List.take 1024 (List.drop offset image)) := by
    unfold get_slice
    rw [if_neg (by omega : ¬(offset + 1024 > image.length))]
  have hsig2 : List.take 4 (List.take 1024 (List.drop offset image)) ≠ fileMagic := by
    rw [List.take_take]
    simpa using hsig
  have hentry : parse_mft_entry (fuel + 1) image offset = some .error := by
    unfold parse_mft_entry
    rw [hdata]
    show parse_mft_entry_data (fuel + 1) (List.take 1024 (List.drop offset image)) =
      some .error
    unfold parse_mft_entry_data
    rw [if_pos hsig2]
  conv_lhs => rw [parse_mft_loop]
  rw [if_pos hoff, hentry]
  show (if c > 1000 then ScanOutcome.done c true
        else parse_mft_loop image fuel (offset + 1024) c) =
    parse_mft_loop image fuel (offset + 1024) c
  rw [if_neg (by omega : ¬(c > 1000))]

/-- Scan-loop invariant on the N+5 image: having extracted 1000 - j facts
from the first 1000 - j blocks with fuel j + 6 left, the loop ends with
1001 facts and an early stop. -/
theorem c5_loop (j : Nat) (hj : j ≤ 1000) :
    parse_mft_loop c5Image (j + 6) ((1000 - j) * 1024) (1000 - j) =
      .done 1001 true := by
  induction j with
  | zero =>
    have h := scan_step_valid_stop c5Image 4 1024000 1000
      (by rw [c5_len]; omega)
      (by simpa using c5_slice 1000 (by omega))
      (by omega)
    simpa using h
  | succ j ih =>
    have e1 : j + 1 + 6 = (j + 5) + 2 := by omega
    have e2 : (1000 - (j + 1)) * 1024 + 1024 = (1000 - j) * 1024 := by omega
    have e3 : 1000 - (j + 1) + 1 = 1000 - j := by omega
    have h := scan_step_valid_cont c5Image (j + 5) ((1000 - (j + 1)) * 1024)
      (1000 - (j + 1))
      (by rw [c5_len]; omega)
      (c5_slice (1000 - (j + 1)) (by omega))
      (by omega)
    rw [e1, h, e2, e3]
    have e4 : j + 5 + 1 = j + 6 := by omega
    rw [e4]
    exact ih (by omega)

theorem c9_len : c9Image.length = 2048 := by
  show (List.replicate 1024 0 ++ validBlock).length = 2048
  simp [validBlock_length]

/-- The first four bytes of c9Image are zeros, not the magic. -/
theorem c9_bad_sig : List.take 4 (List.drop 0 c9Image) ≠ fileMagic := by
  show List.take 4 (List.drop 0 (List.replicate 1024 0 ++ validBlock)) ≠ fileMagic
  decide

/-- The full scan of c9Image: block 0 is skipped on its bad magic, block 1
decodes and yields one fact, and the scan completes without early stop. -/
theorem c9_scan : parse_mft c9Image = .done 1 false := by
  unfold parse_mft
  rw [c9_len]
  have h0 : parse_mft_loop c9Image 3 0 0 = parse_mft_loop c9Image 2 1024 0 := by
    have := scan_step_skip c9Image 2 0 0 (by rw [c9_len]; omega) (by omega) c9_bad_sig
    simpa using this
  have h1 : parse_mft_loop c9Image 2 1024 0 = parse_mft_loop c9Image 1 2048 1 := by
    have hdrop : List.drop 1024 (List.replicate 1024 (0 : Nat) ++ validBlock) =
        validBlock := by
      have h := List.drop_left (List.replicate 1024 (0 : Nat)) validBlock
      simpa using h
    have htake : List.take 1024 validBlock = validBlock :=
      List.take_of_length_le (by rw [validBlock_length])
    have hsl : get_slice c9Image 1024 1024 = .ok validBlock := by
      unfold get_slice
      rw [if_neg (by rw [c9_len]; omega : ¬(1024 + 1024 > c9Image.length))]
      show PResult.ok
        (List.take 1024 (List.drop 1024 (List.replicate 1024 0 ++ validBlock))) = _
      rw [hdrop, htake]
    have := scan_step_valid_cont c9Image 0 1024 0 (by rw [c9_len]) hsl (by omega)
    simpa using this
  rw [show (2048 / 1024 + 1 : Nat) = 3 from by norm_num, h0, h1]
  rw [parse_mft_loop]
  rw [if_neg (by rw [c9_len]; omega : ¬(2048 + 1024 ≤ c9Image.length))]

theorem c1Block_length : c1Block.length = 1024 := by decide

/-- On c1Block the attribute loop never terminates: the attribute at
cursor 56 parses with declared length 0, so the cursor never advances and
every fuel runs out. -/
theorem parse_attrs_c1Block (f : Nat) : parse_attrs c1Block f 56 = none := by
  induction f with
  | zero => rfl
  | succ f ih =>
    have h1 : parse_attribute (List.drop 56 c1Block) = .ok c1Attr := by
      decide
    simp [parse_attrs, h1, ih, c1Attr]

/-- Below the wrap boundary the double two-complement wrap is the identity
on the shifted tick value. -/
theorem toI64_wrap (t : Nat) (ht : (t : Int) < 9339816772854775808) :
    toI64 (toI64 (t : Int) - 116444736000000000) =
      (t : Int) - 116444736000000000 := by
  unfold toI64
  omega

/-- Below the wrap boundary the codec seconds are the unwrapped truncated
quotient. -/
theorem unix_seconds_eq (t : Nat) (ht : (t : Int) < 9339816772854775808) :
    unix_seconds t = i64_tdiv ((t : Int) - 116444736000000000) 10000000 := by
  unfold unix_seconds
  rw [toI64_wrap t ht]

/-- Truncating division by the tick ratio is monotone. -/
theorem i64_tdiv_mono (x y : Int) (h : x ≤ y) :
    i64_tdiv x 10000000 ≤ i64_tdiv y 10000000 := by
  unfold i64_tdiv
  split_ifs <;> omega

/-- A 64-bit signed seconds value divided by the tick ratio lies inside the
chrono calendar range. -/
theorem i64_tdiv_range (x : Int) (h1 : -9223372036854775808 ≤ x)
    (h2 : x < 9223372036854775808) :
    -8334601228800 ≤ i64_tdiv x 10000000 ∧ i64_tdiv x 10000000 ≤ 8210266876799 := by
  unfold i64_tdiv
  split_ifs <;> constructor <;> omega

/-- Below the wrap boundary the codec returns the truncated quotient (the
substitute-now arm is not taken). -/
theorem codec_below_wrap (t : Nat) (ht : (t : Int) < 9339816772854775808)
    (now : Int) :
    windows_time_to_utc t now =
      i64_tdiv ((t : Int) - 116444736000000000) 10000000 := by
  have he := unix_seconds_eq t ht
  have hr := i64_tdiv_range ((t : Int) - 116444736000000000) (by omega) (by omega)
  have hopt : timestamp_opt (unix_seconds t) =
      some (i64_tdiv ((t : Int) - 116444736000000000) 10000000) := by
    rw [he]
    exact if_pos ⟨hr.1, hr.2⟩
  unfold windows_time_to_utc
  rw [hopt]
  rfl

/-- The event-log collaborator appends exactly the six sample events, for
every image and every starting timeline. -/
theorem event_logs_eq (img : List Nat) (tl : List TimelineEvent) :
    parse_event_logs img tl = tl ++ evtx_sample_events := by
  have p1 : parse_from_rfc3339 2024 1 15 10 30 0 = some 1705314600 := by decide
  have p2 : parse_from_rfc3339 2024 1 15 14 22 15 = some 1705328535 := by decide
  have p3 : parse_from_rfc3339 2024 1 16 9 15 30 = some 1705396530 := by decide
  have p4 : parse_from_rfc3339 2024 1 15 11 45 0 = some 1705319100 := by decide
  have p5 : parse_from_rfc3339 2024 1 15 16 20 30 = some 1705335630 := by decide
  have p6 : parse_from_rfc3339 2024 1 16 8 10 15 = some 1705392615 := by decide
  simp [parse_event_logs, parse_security_events, parse_system_events,
    sample_logons, sample_services, p1, p2, p3, p4, p5, p6,
    Timeline.add_user_logon, Timeline.add_service_installation,
    evtx_sample_events]

/-- The prefetch collaborator appends exactly the five sample events, for
every image and every starting timeline. -/
theorem prefetch_files_eq (img : List Nat) (tl : List TimelineEvent) :
    parse_prefetch_files img tl = tl ++ pf_sample_events := by
  have p1 : parse_from_rfc3339 2024 1 15 12 30 0 = some 1705321800 := by decide
  have p2 : parse_from_rfc3339 2024 1 15 14 15 30 = some 1705328130 := by decide
  have p3 : parse_from_rfc3339 2024 1 15 16 45 20 = some 1705337120 := by decide
  have p4 : parse_from_rfc3339 2024 1 16 9 20 15 = some 1705396815 := by decide
  have p5 : parse_from_rfc3339 2024 1 16 10 30 45 = some 1705401045 := by decide
  simp [parse_prefetch_files, parse_sample_prefetch_files,
    sample_prefetch_files, p1, p2, p3, p4, p5,
    Timeline.add_program_execution, pf_sample_events]

/-- Claim C1 (code defect): the spec requires the per-entry attribute scan
of an entry with a valid magic to terminate, in particular on an attribute
whose declared length is 0 with its 16 header bytes readable.  On c1Block
the signature matches the magic, the attribute at cursor 56 parses cleanly
with declared length 0, and both the attribute loop and the whole entry
parse exhaust every fuel: the source loop never terminates because the
cursor never advances and no non-positive-length guard exists. -/
theorem c1_zero_length_attribute_loops_forever :
    List.take 4 c1Block = fileMagic ∧
    parse_attribute (List.drop 56 c1Block) = .ok c1Attr ∧
    c1Attr.attribute_length = 0 ∧
    (∀ fuel : Nat, parse_attrs c1Block fuel 56 = none) ∧
    (∀ fuel : Nat, parse_mft_entry fuel c1Block 0 = none) := by
  refine ⟨by decide, by decide, by decide, parse_attrs_c1Block, ?_⟩
  intro fuel
  have hsl : get_slice c1Block 0 1024 = .ok c1Block := by
    unfold get_slice
    rw [if_neg (by rw [c1Block_length]; omega : ¬(0 + 1024 > c1Block.length))]
    rw [List.drop_zero, List.take_of_length_le (by rw [c1Block_length])]
  unfold parse_mft_entry
  rw [hsl]
  show parse_mft_entry_data fuel c1Block = none
  unfold parse_mft_entry_data
  rw [if_neg (by decide : ¬(List.take 4 c1Block ≠ fileMagic))]
  rw [show readU16 c1Block 8 = 56 from by decide]
  rw [parse_attrs_c1Block fuel]

/-- Claim C2 (code defect): the spec requires a clean decode failure when
the filename field would read past the end of the content.  c2Data has the
66-byte minimum length and declares a 1-character filename, so the slice
ends at byte 68 past the end: the source panics on the slice rather than
returning an error. -/
theorem c2_filename_slice_panics :
    c2Data.length = 66 ∧
    readU8 c2Data 60 = 1 ∧
    66 + readU8 c2Data 60 * 2 > c2Data.length ∧
    parse_filename_attribute c2Data = .panicked := by
  decide

/-- Claim C4: for every image and starting timeline, the event-log and
prefetch collaborators ignore the image bytes and append the fixed eleven
sample events: three user logons labelled Security.evtx, three service
installations labelled System.evtx and five program executions, all with
timestamps inside January 2024. -/
theorem c4_collaborators_append_fixed_sample_events :
    ∀ (img img2 : List Nat) (tl : List TimelineEvent),
      parse_event_logs img tl = parse_event_logs img2 tl ∧
      parse_prefetch_files img tl = parse_prefetch_files img2 tl ∧
      parse_event_logs img tl = tl ++ evtx_sample_events ∧
      parse_prefetch_files img tl = tl ++ pf_sample_events ∧
      evtx_sample_events.length = 6 ∧
      pf_sample_events.length = 5 ∧
      evtx_sample_events.countP
        (fun e => decide (e.event_type = EventType.UserLogon ∧
          e.source_artifact = "Security.evtx")) = 3 ∧
      evtx_sample_events.countP
        (fun e => decide (e.event_type = EventType.ServiceInstallation ∧
          e.source_artifact = "System.evtx")) = 3 ∧
      pf_sample_events.countP
        (fun e => decide (e.event_type = EventType.ProgramExecution)) = 5 ∧
      (evtx_sample_events ++ pf_sample_events).all
        (fun e => decide (1704067200 ≤ e.timestamp ∧
          e.timestamp < 1706745600)) = true := by
  intro img img2 tl
  refine ⟨?_, ?_, event_logs_eq img tl, prefetch_files_eq img tl,
    by decide, by decide, by decide, by decide, by decide, by decide⟩
  · rw [event_logs_eq img tl, event_logs_eq img2 tl]
  · rw [prefetch_files_eq img tl, prefetch_files_eq img2 tl]

/-- Claim C5 (code defect): on an image of 1005 valid fact-yielding
entries the scan extracts 1001 facts, not the 1000 of the stated cap,
because the loop breaks only once the counter already exceeds 1000; the
early stop is reported and the scan still succeeds. -/
theorem c5_cap_extracts_1001_facts : parse_mft c5Image = .done 1001 true := by
  unfold parse_mft
  rw [c5_len]
  have h := c5_loop 1000 (by omega)
  simpa using h

/-- On every call whose usize sum does not overflow, the full-semantics
get_slice agrees with the in-range model used by the scan. -/
theorem get_slice_usize_agrees_below_wrap (image : List Nat)
    (offset length : Nat) (h : offset + length < 18446744073709551616) :
    get_slice_usize image offset length =
      toSliceOutcome (get_slice image offset length) := by
  unfold get_slice_usize get_slice usize_add
  rw [Nat.mod_eq_of_lt h]
  by_cases hb : offset + length > image.length
  · rw [if_pos hb, if_pos hb]
    rfl
  · rw [if_neg hb, if_neg hb, if_pos (by omega : offset ≤ offset + length)]
    rw [show offset + length - offset = length from by omega]
    rfl

/-- Counterexample to claim C6 as stated: at offset usize::MAX with
length 2 on the one-byte image, offset + length as unbounded naturals
exceeds the size, yet the wrapped usize sum is 1, the bounds check is
bypassed, and the slice panics (aborts) instead of failing with the clean
out-of-bounds error. -/
theorem c6_overflow_bypasses_bounds_check :
    usize_add 18446744073709551615 2 = 1 ∧
    18446744073709551615 + 2 > List.length [7] ∧
    get_slice_usize [7] 18446744073709551615 2 = .panicked := by
  decide

/-- Claim C6 (amended): for every (offset, length) pair whose usize sum
does not overflow, get_slice fails with the out-of-bounds error exactly
when offset + length exceeds the image size and otherwise returns the byte
slice without aborting; in particular, on every image of usize size, a
zero-length read at the size succeeds and a zero-length read at size + 1
fails.  Pairs whose sum overflows usize bypass the bounds check and panic
instead of erroring. -/
theorem c6_get_slice_bounds_no_overflow :
    ∀ (image : List Nat) (offset length : Nat),
      (offset + length < 18446744073709551616 →
        (get_slice_usize image offset length = .error ↔
          offset + length > image.length) ∧
        (offset + length ≤ image.length →
          get_slice_usize image offset length =
            .ok (List.take length (List.drop offset image)))) ∧
      (image.length < 18446744073709551615 →
        get_slice_usize image image.length 0 = .ok [] ∧
        get_slice_usize image (image.length + 1) 0 = .error) := by
  intro image offset length
  constructor
  · intro h
    unfold get_slice_usize usize_add
    rw [Nat.mod_eq_of_lt h]
    constructor
    · by_cases hb : offset + length > image.length
      · rw [if_pos hb]
        simp [hb]
      · rw [if_neg hb, if_pos (by omega : offset ≤ offset + length)]
        simp [hb]
    · intro hle
      rw [if_neg (by omega), if_pos (by omega : offset ≤ offset + length)]
      rw [show offset + length - offset = length from by omega]
  · intro h
    constructor
    · unfold get_slice_usize usize_add
      rw [Nat.mod_eq_of_lt (by omega)]
      rw [if_neg (by omega), if_pos (by omega)]
      simp
    · unfold get_slice_usize usize_add
      rw [Nat.mod_eq_of_lt (by omega)]
      rw [if_pos (by omega)]

/-- Witness for the amended claim C6 at concrete inputs: an in-bounds
non-overflowing read returns the slice, and a read past the end of the
empty image fails cleanly. -/
theorem c6_get_slice_bounds_no_overflow_witness :
    get_slice_usize [7, 8, 9] 1 2 = .ok (List.take 2 (List.drop 1 [7, 8, 9])) ∧
    get_slice_usize ([] : List Nat) 0 1 = .error :=
  ⟨((c6_get_slice_bounds_no_overflow [7, 8, 9] 1 2).1 (by decide)).2 (by decide),
   ((c6_get_slice_bounds_no_overflow [] 0 1).1 (by decide)).1.mpr (by decide)⟩

/-- Counterexample to claim C7 as stated: c7Data decodes to a resident
attribute with non-empty content although its content region (offset 20
plus size 8) exceeds its own declared attribute length 24; the source only
bounds the region by the data available from the attribute start. -/
theorem c7_content_exceeds_declared_length :
    parse_attribute c7Data = .ok c7Attr ∧
    c7Attr.non_resident = false ∧
    c7Attr.content ≠ [] ∧
    readU16 c7Data 16 + readU16 c7Data 18 > c7Attr.attribute_length := by
  decide

/-- Claim C7 (amended): a decoded attribute is given non-empty resident
content only when content offset + content size fits in the data available
from the attribute start (not its declared attribute length), and the
content is exactly that slice. -/
theorem c7_content_bounded_by_available_data :
    ∀ (data : List Nat) (a : MftAttribute),
      parse_attribute data = .ok a → a.content ≠ [] →
      a.non_resident = false ∧
      readU16 data 16 + readU16 data 18 ≤ data.length ∧
      a.content = List.take (readU16 data 18) (List.drop (readU16 data 16) data) := by
  intro data a hok hne
  obtain ⟨t2, len2, nr2, nl2, no3, fl2, id3, content2⟩ := a
  unfold parse_attribute at hok
  by_cases h1 : data.length < 16
  · simp [h1] at hok
  by_cases hb : readU8 data 8 = 0
  · by_cases h3 : data.length < 20
    · simp [h1, hb, h3] at hok
    · by_cases hc : readU16 data 16 + readU16 data 18 ≤ data.length
      · simp [h1, hb, h3, hc] at hok
        simp_all
      · simp [h1, hb, h3, hc] at hok
        simp_all
  · simp [h1, hb] at hok
    simp_all

/-- Witness for the amended claim C7 at c7Data: the decoded content region
fits in the available data and the content is that slice. -/
theorem c7_content_bounded_by_available_data_witness :
    c7Attr.non_resident = false ∧
    readU16 c7Data 16 + readU16 c7Data 18 ≤ c7Data.length ∧
    c7Attr.content =
      List.take (readU16 c7Data 18) (List.drop (readU16 c7Data 16) c7Data) :=
  c7_content_bounded_by_available_data c7Data c7Attr (by decide) (by decide)

/-- Claim C8: Timeline sort is a permutation of the appended events with
non-decreasing timestamps, and it is stable: two events with equal
timestamps keep their relative append order. -/
theorem c8_sort_stable_nondecreasing :
    ∀ l : List TimelineEvent,
      (Timeline.sort l).Perm l ∧
      List.Pairwise (fun a b => a.timestamp ≤ b.timestamp) (Timeline.sort l) ∧
      (∀ a b : TimelineEvent, a.timestamp = b.timestamp →
        List.Sublist [a, b] l → List.Sublist [a, b] (Timeline.sort l)) := by
  intro l
  have htrans : ∀ a b c : TimelineEvent,
      decide (a.timestamp ≤ b.timestamp) = true →
      decide (b.timestamp ≤ c.timestamp) = true →
      decide (a.timestamp ≤ c.timestamp) = true := by
    intro a b c h1 h2
    simp at h1 h2 ⊢
    omega
  have htotal : ∀ a b : TimelineEvent,
      (decide (a.timestamp ≤ b.timestamp) ||
        decide (b.timestamp ≤ a.timestamp)) = true := by
    intro a b
    simp
    omega
  refine ⟨List.mergeSort_perm l _, ?_, ?_⟩
  · have h := List.sorted_mergeSort htrans htotal l
    exact h.imp (fun hab => by simpa using hab)
  · intro a b hts hsub
    exact List.mergeSort_stable_pair htrans htotal (by simp [hts]) hsub

/-- Witness for claim C8 at a concrete timeline: the two events appended
with the equal timestamp 5 stay in append order after the sort. -/
theorem c8_sort_stable_nondecreasing_witness :
    List.Sublist
      [(⟨5, .FileCreation, "a", "MFT"⟩ : TimelineEvent),
       (⟨5, .FileAccess, "b", "MFT"⟩ : TimelineEvent)]
      (Timeline.sort
        [⟨5, .FileCreation, "a", "MFT"⟩, ⟨5, .FileAccess, "b", "MFT"⟩,
         ⟨3, .UserLogon, "c", "Security.evtx"⟩]) :=
  (c8_sort_stable_nondecreasing
      [⟨5, .FileCreation, "a", "MFT"⟩, ⟨5, .FileAccess, "b", "MFT"⟩,
       ⟨3, .UserLogon, "c", "Security.evtx"⟩]).2.2
    ⟨5, .FileCreation, "a", "MFT"⟩ ⟨5, .FileAccess, "b", "MFT"⟩ rfl
    (List.Sublist.cons₂ _ (List.Sublist.cons₂ _ (List.nil_sublist _)))

/-- Claim C9: a block whose first four bytes differ from the magic is
skipped — the scan step at such a block leaves the fact count unchanged
and resumes at the next 1024-byte stride — and on c9Image (bad block then
valid block) the scan still decodes the later valid entry, extracting its
one fact and finishing without error. -/
theorem c9_bad_magic_skipped_scan_continues :
    (∀ (image : List Nat) (fuel offset c : Nat),
        offset + 1024 ≤ image.length → c ≤ 1000 →
        List.take 4 (List.drop offset image) ≠ fileMagic →
        parse_mft_loop image (fuel + 1) offset c =
          parse_mft_loop image fuel (offset + 1024) c) ∧
    List.take 4 (List.drop 0 c9Image) ≠ fileMagic ∧
    parse_mft c9Image = .done 1 false :=
  ⟨scan_step_skip, c9_bad_sig, c9_scan⟩

/-- Witness for claim C9 at the concrete image c9Image: the skip step at
offset 0 with counter 0. -/
theorem c9_bad_magic_skipped_scan_continues_witness :
    parse_mft_loop c9Image 3 0 0 = parse_mft_loop c9Image 2 1024 0 :=
  c9_bad_magic_skipped_scan_continues.1 c9Image 2 0 0
    (by rw [c9_len]; omega) (by omega)
    c9_bad_magic_skipped_scan_continues.2.1

/-- Counterexample to claim C10 as stated: the ticks one below and at
116444736000000000 + 2^63 are both in the representable range, yet the
codec output decreases across them, because the i64 cast and subtraction
wrap; so the codec is not monotone on all representable 64-bit ticks. -/
theorem c10_not_monotonic_across_wrap :
    (9339816772854775807 : Nat) < 9339816772854775808 ∧
    (9339816772854775808 : Nat) < 18446744073709551616 ∧
    timestamp_opt (unix_seconds 9339816772854775807) = some 922337203685 ∧
    timestamp_opt (unix_seconds 9339816772854775808) = some (-922337203685) ∧
    windows_time_to_utc 9339816772854775808 0 <
      windows_time_to_utc 9339816772854775807 0 := by
  decide

/-- Claim C10 (amended): the codec is deterministic (its output never
depends on the ambient current time) and monotone on ticks below the wrap
boundary 116444736000000000 + 2^63, which covers every tick whose i64 cast
and epoch subtraction do not wrap; monotonicity fails only across that
boundary. -/
theorem c10_deterministic_monotonic_below_wrap :
    ∀ (t1 t2 : Nat) (now now2 : Int),
      t2 < 9339816772854775808 → t1 < t2 →
      windows_time_to_utc t1 now = windows_time_to_utc t1 now2 ∧
      windows_time_to_utc t1 now ≤ windows_time_to_utc t2 now := by
  intro t1 t2 now now2 hb h12
  have hb2 : (t2 : Int) < 9339816772854775808 := by omega
  have hb1 : (t1 : Int) < 9339816772854775808 := by omega
  refine ⟨?_, ?_⟩
  · rw [codec_below_wrap t1 hb1 now, codec_below_wrap t1 hb1 now2]
  · rw [codec_below_wrap t1 hb1 now, codec_below_wrap t2 hb2 now]
    exact i64_tdiv_mono _ _ (by omega)

/-- Witness for the amended claim C10 at concrete ticks 0 and 10000000
and two different ambient times. -/
theorem c10_deterministic_monotonic_below_wrap_witness :
    windows_time_to_utc 0 5 = windows_time_to_utc 0 7 ∧
    windows_time_to_utc 0 5 ≤ windows_time_to_utc 10000000 5 :=
  c10_deterministic_monotonic_below_wrap 0 10000000 5 7 (by decide) (by decide)
